import Mathlib

/-!
# Verification of the batbash tab power-saver core

Shallow embedding of the throttle/restore state machine of the batbash
browser extension:

* `src/throttle-script.js` — the capability interceptor injected into a tab;
* `src/restore-script.js`  — its inverse;
* `src/background.js`      — the population coordinator (sweep, whitelist,
  throttle/restore drivers).

JavaScript function objects are modelled by the inductive `Fn`, whose
constructors record how a binding was produced, so that reference
(in)equality of bindings is constructor (in)equality.  A tab's `window`
global scope, together with the document state the scripts touch, is the
structure `Window`.  The two injected scripts become pure functions
`throttleScript : Window → Window` and
`restoreScript : Window → Window × List Nat` (the list records which media
elements had a resume attempted), transliterated top-to-bottom from the
source.  The coordinator's sweep over the tab population becomes a fold of
`sweepStep` over a list of `Tab`s.
-/

/-- A JavaScript function value.  Reference identity is what matters for the
round-trip claims, so each way the source produces a function object is a
constructor: `native k` is a pristine platform binding (distinguished by
`k`), `bound f` is the fresh function object produced by `f.bind(window)`,
and each `throttled…` constructor is the wrapper closure the throttle
script installs (carrying the references it closes over).  `blockedPlay` is
the rejecting `media.play` replacement of throttle-script.js line 219. -/
inductive Fn : Type where
  | native : Nat → Fn
  | bound : Fn → Fn
  | throttledSetTimeout : Fn → Fn
  | throttledSetInterval : Fn → Fn
  | throttledRAF : Fn → Fn → Fn
  | throttledCancelRAF : Fn → Fn → Fn
  | throttledGetContext : Fn → Fn
  | throttledResizeObserver : Fn → Fn
  | throttledIntersectionObserver : Fn → Fn
  | throttledWorker : Fn → Fn
  | blockedPlay : Fn
deriving DecidableEq

/-- Number of wrappers piled on top of a native binding; used to show a
wrapper is never reference-equal to the function it wraps. -/
def Fn.depth : Fn → Nat
  | .native _ => 0
  | .bound f => f.depth + 1
  | .throttledSetTimeout f => f.depth + 1
  | .throttledSetInterval f => f.depth + 1
  | .throttledRAF f _ => f.depth + 1
  | .throttledCancelRAF f _ => f.depth + 1
  | .throttledGetContext f => f.depth + 1
  | .throttledResizeObserver f => f.depth + 1
  | .throttledIntersectionObserver f => f.depth + 1
  | .throttledWorker f => f.depth + 1
  | .blockedPlay => 0

/-- One playable (`video`/`audio`) element, with the properties and expando
fields the two scripts read or write.  `inDocument` is whether the element
is currently attached to the document (`querySelectorAll` only sees
attached elements; an element referenced from the snapshot list stays alive
after removal).  Playback position is modelled as a `Nat` since the claims
only need it recorded and copied back. -/
structure MediaElem : Type where
  id : Nat
  paused : Bool
  currentTime : Nat
  autoplay : Bool
  muted : Bool
  playFn : Fn
  originalPlay : Option Fn
  throttledMark : Bool
  dataWasPlaying : Bool
  controls : Bool
  inDocument : Bool
deriving DecidableEq

/-- One entry of `window.__tabPowerSaverMediaState`.  The fields are the
ones restore-script.js line 131 destructures; a field is `none` when the
object pushed by the throttle script carries no such key (JavaScript
`undefined`).  throttle-script.js line 210 pushes
`{ element, wasPlaying, currentTime }`, so the two flag fields are always
`none` there. -/
structure Snapshot : Type where
  elemId : Nat
  wasPlaying : Bool
  currentTime : Nat
  originalAutoplay : Option Bool
  originalMuted : Option Bool
deriving DecidableEq

/-- `window.__tabPowerSaverOriginals` (throttle-script.js lines 22-27, with
the two extra keys added at lines 115-116; those are `Option` because the
restore script tests for their presence). -/
structure Originals : Type where
  setTimeout : Fn
  setInterval : Fn
  requestAnimationFrame : Fn
  cancelAnimationFrame : Option Fn
  clearTimeout : Option Fn
deriving DecidableEq

/-- The per-tab state the two injected scripts read and write: the global
capability bindings, the `__tabPowerSaver…` expando globals, the throttle
marker, the root `data-tab-power-saver` attribute, the count of attached
power-saver style elements (the throttle script appends one each run), and
the playable elements of the page. -/
structure Window : Type where
  setTimeout : Fn
  setInterval : Fn
  requestAnimationFrame : Fn
  cancelAnimationFrame : Fn
  clearTimeout : Fn
  /-- `HTMLCanvasElement.prototype.getContext`. -/
  canvasGetContext : Fn
  ResizeObserver : Fn
  IntersectionObserver : Fn
  Worker : Fn
  /-- `window.__tabPowerSaverApplied`, the Throttle Marker. -/
  applied : Bool
  originals : Option Originals
  /-- `window.__tabPowerSaverOriginalCanvasGetContext`. -/
  origCanvasGetContext : Option Fn
  origResizeObserver : Option Fn
  origIntersectionObserver : Option Fn
  origWorker : Option Fn
  /-- `window.__tabPowerSaverMediaState`. -/
  mediaState : Option (List Snapshot)
  mediaObserverActive : Bool
  rafIdMapPresent : Bool
  canvasRenderMapPresent : Bool
  /-- number of `data-power-saver` style elements attached to the head. -/
  styleCount : Nat
  /-- `window.__tabPowerSaverStyleElement` reference present. -/
  styleElementRef : Bool
  /-- `data-tab-power-saver="throttled"` on the root element. -/
  dataAttr : Bool
  media : List MediaElem
deriving DecidableEq

/-- `throttleMediaElement` (throttle-script.js lines 198-227): pause a
playing element, push `{ element, wasPlaying, currentTime }` onto the
snapshot list, clear `autoplay`, set `muted`, replace `play` with the
rejecting stub, and set the per-element marker.  Elements already carrying
the marker are skipped (line 200). -/
def throttleMediaElement (acc : List Snapshot) (m : MediaElem) :
    MediaElem × List Snapshot :=
  if m.throttledMark then (m, acc)
  else
    let wasPlaying := !m.paused
    let m1 := if wasPlaying then { m with paused := true, dataWasPlaying := true } else m
    let acc1 := acc ++ [⟨m.id, wasPlaying, m.currentTime, none, none⟩]
    let m2 := { m1 with autoplay := false, muted := true }
    let m3 :=
      if m2.originalPlay = none then
        { m2 with originalPlay := some m2.playFn, playFn := Fn.blockedPlay }
      else m2
    ({ m3 with throttledMark := true }, acc1)

/-- `document.querySelectorAll('video, audio').forEach(throttleMediaElement)`
(throttle-script.js line 230): only elements attached to the document are
visited; the fresh `mediaElements` array is threaded through. -/
def throttleMediaPass : List MediaElem → List MediaElem × List Snapshot
  | [] => ([], [])
  | m :: ms =>
    let (m', acc) := if m.inDocument then throttleMediaElement [] m else (m, [])
    let (ms', accs) := throttleMediaPass ms
    (m' :: ms', acc ++ accs)

/-- The whole of `throttle-script.js`, run once in a tab.  The idempotency
guard at lines 1-8 is an IIFE whose `return` exits only that IIFE, so the
rest of the file executes whether or not the marker is already set; this
function therefore does not branch on `w.applied`.  The `original…`
captures use `.bind(window)` (lines 17-19, 91-92), which produces a fresh
bound function object, modelled by `Fn.bound`; the canvas capture at
line 20 takes the prototype binding directly. -/
def throttleScript (w : Window) : Window :=
  let originalSetTimeout := Fn.bound w.setTimeout
  let originalSetInterval := Fn.bound w.setInterval
  let originalRAF := Fn.bound w.requestAnimationFrame
  let originalCanvasGetContext := w.canvasGetContext
  let originalCancelRAF := Fn.bound w.cancelAnimationFrame
  let originalClearTimeout := Fn.bound w.clearTimeout
  let p := throttleMediaPass w.media
  { w with
    applied := true
    originals := some
      { setTimeout := originalSetTimeout
        setInterval := originalSetInterval
        requestAnimationFrame := originalRAF
        cancelAnimationFrame := some originalCancelRAF
        clearTimeout := some originalClearTimeout }
    setTimeout := Fn.throttledSetTimeout originalSetTimeout
    setInterval := Fn.throttledSetInterval originalSetInterval
    requestAnimationFrame := Fn.throttledRAF originalRAF originalSetTimeout
    cancelAnimationFrame := Fn.throttledCancelRAF originalCancelRAF originalClearTimeout
    rafIdMapPresent := true
    canvasGetContext := Fn.throttledGetContext originalCanvasGetContext
    canvasRenderMapPresent := true
    origCanvasGetContext := some originalCanvasGetContext
    media := p.1
    mediaState := some p.2
    mediaObserverActive := true
    origResizeObserver := some w.ResizeObserver
    ResizeObserver := Fn.throttledResizeObserver w.ResizeObserver
    origIntersectionObserver := some w.IntersectionObserver
    IntersectionObserver := Fn.throttledIntersectionObserver w.IntersectionObserver
    origWorker := some w.Worker
    Worker := Fn.throttledWorker w.Worker
    dataAttr := true
    styleCount := w.styleCount + 1
    styleElementRef := true }

/-- The per-snapshot body of the media restore loop (restore-script.js
lines 131-162) applied to the element the snapshot references: restore the
original `play`, clear the per-element marker, set `muted` to
`originalMuted` when that key is present and `false` otherwise (line 142),
seek back and (handled by the caller) attempt resume when `wasPlaying`,
drop the `data-was-playing` attribute, and set `autoplay` to
`originalAutoplay` when present and `true` otherwise (line 161). -/
def restoreMediaElement (s : Snapshot) (m : MediaElem) : MediaElem :=
  let m1 := match m.originalPlay with
    | some p => { m with playFn := p, originalPlay := none }
    | none => m
  let m2 := { m1 with throttledMark := false }
  let m3 := { m2 with muted := s.originalMuted.getD false }
  let m4 := if s.wasPlaying then { m3 with currentTime := s.currentTime } else m3
  let m5 := { m4 with dataWasPlaying := false }
  { m5 with autoplay := s.originalAutoplay.getD true }

/-- `window.__tabPowerSaverMediaState.forEach(...)`: each snapshot mutates
the element it holds a reference to, whether or not that element is still
attached to the document. -/
def restoreMediaPass (media : List MediaElem) (snaps : List Snapshot) :
    List MediaElem :=
  snaps.foldl
    (fun acc s => acc.map (fun m => if m.id = s.elemId then restoreMediaElement s m else m))
    media

/-- The whole of `restore-script.js`.  Returns the new window state
together with the ids of the elements on which `element.play()` was called
(line 149; the call happens for every snapshot whose `wasPlaying` flag is
set, and its rejection is caught at lines 149-156, so it never aborts the
loop).  Sections 4 and 5 of the script perform no restoration of
`ResizeObserver`, `IntersectionObserver` or `Worker` (lines 170-176). -/
def restoreScript (w : Window) : Window × List Nat :=
  if w.applied = false then (w, [])
  else
    -- section 1: timing bindings, from the captured originals
    let w1 := match w.originals with
      | some o =>
        let a := { w with
          setTimeout := o.setTimeout
          setInterval := o.setInterval
          requestAnimationFrame := o.requestAnimationFrame }
        let b := match o.cancelAnimationFrame with
          | some c => { a with cancelAnimationFrame := c }
          | none => a
        { b with rafIdMapPresent := false }
      | none => w
    -- section 2: canvas prototype binding
    let w2 := match w1.origCanvasGetContext with
      | some g =>
        { w1 with
          canvasGetContext := g
          canvasRenderMapPresent := false
          origCanvasGetContext := none }
      | none => w1
    -- section 3: disconnect the observer, then walk the snapshot list
    let w3 := { w2 with mediaObserverActive := false }
    let r := match w3.mediaState with
      | some snaps =>
        ({ w3 with media := restoreMediaPass w3.media snaps, mediaState := none },
          (snaps.filter (fun s : Snapshot => s.wasPlaying)).map
            (fun s : Snapshot => s.elemId))
      | none => (w3, [])
    let w4 := r.1
    -- sections 4 and 5: no restoration performed for the observers or Worker
    -- section 6: remove the attached stylesheet
    let w5 :=
      if w4.styleElementRef then
        { w4 with styleCount := w4.styleCount - 1, styleElementRef := false }
      else w4
    -- section 7: final cleanup
    ({ w5 with originals := none, dataAttr := false, applied := false }, r.2)

/-- A timer call as issued by page code: the callback, the requested delay,
and any additional arguments after the delay (which the platform's
unpatched scheduler forwards to the callback when the timer fires). -/
structure TimerCall : Type where
  cb : Nat
  delay : Nat
  extraArgs : List Nat
deriving DecidableEq

/-- Platform behaviour of an unpatched scheduler: when the timer fires, the
callback receives the additional arguments of the scheduling call. -/
def nativeTimerCallbackArgs (c : TimerCall) : List Nat := c.extraArgs

/-- What one invocation of a scheduler binding does with a call: the
wrapper installed at throttle-script.js lines 31-40 forwards
`(cb, Math.max(delay, 10000))` — and nothing else — to the captured
original; the one at lines 42-51 forwards `(cb, Math.max(delay, 30000))`.
Any other binding receives the call unchanged. -/
def schedDispatch : Fn → TimerCall → Fn × TimerCall
  | .throttledSetTimeout o, c => (o, ⟨c.cb, max c.delay 10000, []⟩)
  | .throttledSetInterval o, c => (o, ⟨c.cb, max c.delay 30000, []⟩)
  | f, c => (f, c)

-- A concrete pristine tab used as evaluation input: one playing, unmuted,
-- non-autoplay media element attached to the document.
def sampleMedia : MediaElem :=
  { id := 7, paused := false, currentTime := 42, autoplay := false,
    muted := false, playFn := Fn.native 10, originalPlay := none,
    throttledMark := false, dataWasPlaying := false, controls := true,
    inDocument := true }

def sampleWindow : Window :=
  { setTimeout := Fn.native 0, setInterval := Fn.native 1,
    requestAnimationFrame := Fn.native 2, cancelAnimationFrame := Fn.native 3,
    clearTimeout := Fn.native 4, canvasGetContext := Fn.native 5,
    ResizeObserver := Fn.native 6, IntersectionObserver := Fn.native 7,
    Worker := Fn.native 8, applied := false, originals := none,
    origCanvasGetContext := none, origResizeObserver := none,
    origIntersectionObserver := none, origWorker := none, mediaState := none,
    mediaObserverActive := false, rafIdMapPresent := false,
    canvasRenderMapPresent := false, styleCount := 0,
    styleElementRef := false, dataAttr := false, media := [sampleMedia] }

/-! ## The population coordinator (`src/background.js`) -/

/-- Split a character list at every `'.'` (the `host.split('.')` of
background.js line 27). -/
def splitOnDot (l : List Char) : List (List Char) :=
  match l with
  | [] => [[]]
  | c :: cs =>
    match splitOnDot cs with
    | [] => [[]]
    | h :: t => if c = '.' then [] :: h :: t else (c :: h) :: t

/-- `parts.join('.')`. -/
def joinDots : List (List Char) → List Char
  | [] => []
  | [p] => p
  | p :: ps => p ++ '.' :: joinDots ps

/-- Split a character list at the first occurrence of `"://"`, returning
the text before and after it, or `none` when the marker does not occur. -/
def splitScheme : List Char → Option (List Char × List Char)
  | ':' :: '/' :: '/' :: rest => some ([], rest)
  | [] => none
  | c :: rest => (splitScheme rest).map (fun p => (c :: p.1, p.2))

/-- The platform's `new URL(url).hostname`, modelled for URLs of the shape
`scheme://host[/path…]`: the host is the text between `"://"` and the first
delimiter.  A string with no `"://"`, an empty scheme or an empty host does
not parse (`new URL` throws), giving `none`. -/
def hostOf (s : String) : Option String :=
  match splitScheme s.data with
  | none => none
  | some (scheme, rest) =>
    if scheme = [] then none
    else
      let host := rest.takeWhile (fun c => !(c = '/' || c = '?' || c = '#' || c = ':'))
      if host = [] then none else some ⟨host⟩

/-- `getDomain` (background.js lines 23-31): hostname with a leading
`"www."` stripped; when more than two dot-separated labels remain, only the
last two are kept.  A URL the platform cannot parse falls into the `catch`
and yields `""`. -/
def getDomain (url : String) : String :=
  match hostOf url with
  | none => ""
  | some h =>
    let hd := h.data
    let stripped := if hd.take 4 = ['w', 'w', 'w', '.'] then hd.drop 4 else hd
    let parts := splitOnDot stripped
    if parts.length > 2 then ⟨joinDots (parts.drop (parts.length - 2))⟩
    else ⟨stripped⟩

/-- `isWhitelisted` (background.js lines 34-37): `d && sites.includes(d)`,
where the empty string is falsy. -/
def isWhitelisted (url : String) (sites : List String) : Bool :=
  let d := getDomain url
  !(d = "") && sites.contains d

/-- `RESTRICTED_SCHEMES` (background.js lines 11-17). -/
def RESTRICTED_SCHEMES : List String :=
  ["about:", "chrome:", "file:", "moz-extension:", "view-source:"]

/-- `url.startsWith(scheme)`, spelled out over the character lists. -/
def startsWithChars : List Char → List Char → Bool
  | [], _ => true
  | _ :: _, [] => false
  | p :: ps, c :: cs => p = c && startsWithChars ps cs

/-- One browser tab as the coordinator sees it. -/
structure Tab : Type where
  id : Nat
  url : String
  active : Bool
  pinned : Bool
  audible : Bool
deriving DecidableEq

/-- `isTabAccessible` (background.js lines 250-257): a tab with no URL is
inaccessible, as is one whose URL starts with a restricted scheme. -/
def isTabAccessible (t : Tab) : Bool :=
  !(t.url = "") && !(RESTRICTED_SCHEMES.any (fun s => startsWithChars s.data t.url.data))

/-- One iteration of the `tabs.forEach` body of `detectAllBackgroundTabs`
(background.js lines 206-225), acting on the pair of the throttled set and
the injection attempts made so far.  Case 1 (background, unpinned,
inaudible, untracked) runs `throttleTab`, whose pre-injection marker probe
and `injectThrottleScript` call are one script-execution attempt into the
tab (recorded in the attempt list); `inj` says whether the platform permits
execution in that tab, and only a permitted injection adds the id to the
set (background.js line 317 adds after success; a permission denial at
lines 307-314 only logs).  The marker probe is modelled as answering "not
applied", the steady state for a tab outside the throttled set.  Case 2
(active and tracked) runs `restoreTab`, which removes the id on every
outcome (lines 333, 348, 352). -/
def sweepStep (sites : List String) (inj : Nat → Bool)
    (p : Finset Nat × List Nat) (t : Tab) : Finset Nat × List Nat :=
  if isTabAccessible t = false then p
  else if isWhitelisted t.url sites = true then p
  else if t.active = false ∧ t.pinned = false ∧ t.audible = false ∧ t.id ∉ p.1 then
    ((if inj t.id = true then insert t.id p.1 else p.1), p.2 ++ [t.id])
  else if t.active = true ∧ t.id ∈ p.1 then (p.1.erase t.id, p.2)
  else p

/-- One full sweep of `detectAllBackgroundTabs` (background.js
lines 190-229) over the tab population: the resulting throttled set. -/
def detectAllBackgroundTabs (sites : List String) (inj : Nat → Bool)
    (tabs : List Tab) (S : Finset Nat) : Finset Nat :=
  (tabs.foldl (sweepStep sites inj) (S, [])).1

/-- The script-execution attempts one sweep makes, in order. -/
def sweepAttempts (sites : List String) (inj : Nat → Bool)
    (tabs : List Tab) (S : Finset Nat) : List Nat :=
  (tabs.foldl (sweepStep sites inj) (S, [])).2

/-- A tab the sweep should throttle, per the spec's convergence target:
accessible, not exempt, not visible, not pinned, not audible. -/
def eligibleTab (sites : List String) (t : Tab) : Bool :=
  isTabAccessible t && !(isWhitelisted t.url sites) &&
    !t.active && !t.pinned && !t.audible

/-- A tab whose sweep case 2 can fire: accessible, not exempt, visible. -/
def deactivatingTab (sites : List String) (t : Tab) : Bool :=
  isTabAccessible t && !(isWhitelisted t.url sites) && t.active

/-- The set the spec says one sweep converges to. -/
def sweepTarget (sites : List String) (tabs : List Tab) : Finset Nat :=
  ((tabs.filter (fun t => eligibleTab sites t)).map Tab.id).toFinset

/-- The ways `restoreTab` (background.js lines 326-355) can end: the
`tabs.get` callback reports an error, the tab is inaccessible, the
`executeScript` callback reports an error or success, or `executeScript`
throws synchronously. -/
inductive RestoreOutcome : Type where
  | lookupFailed
  | inaccessible
  | injectError
  | injectOk
  | thrown
deriving DecidableEq

/-- Effect of `restoreTab` on the throttled set: every branch of the source
ends in `throttledTabs.delete(tabId)` (background.js lines 333, 348, 352),
matched here branch by branch. -/
def restoreTabSet (S : Finset Nat) (tabId : Nat) : RestoreOutcome → Finset Nat
  | .lookupFailed => S.erase tabId
  | .inaccessible => S.erase tabId
  | .injectError => S.erase tabId
  | .injectOk => S.erase tabId
  | .thrown => S.erase tabId

/-- A playing media element that is muted and has `autoplay` off before
throttling; exercises the flag round-trip. -/
def mutedMedia : MediaElem :=
  { id := 7, paused := false, currentTime := 42, autoplay := false,
    muted := true, playFn := Fn.native 10, originalPlay := none,
    throttledMark := false, dataWasPlaying := false, controls := true,
    inDocument := true }

def mutedWindow : Window := { sampleWindow with media := [mutedMedia] }

/-- `sampleWindow` throttled, then with its media element removed from the
document before restoration runs (the snapshot list still references the
element, which stays alive). -/
def detachedWindow : Window :=
  let w1 := throttleScript sampleWindow
  { w1 with media := w1.media.map (fun m => { m with inDocument := false }) }

/-- A background, pinned, inaudible tab on an ordinary https origin. -/
def pinnedTab : Tab :=
  { id := 1, url := "https://example.com/", active := false, pinned := true,
    audible := false }

/-- A background, unpinned, inaudible tab on an origin the extension holds
no host permission for (the URL scheme itself is not restricted, so
`isTabAccessible` accepts it and only the injection is refused). -/
def deniedTab : Tab :=
  { id := 3, url := "https://example.com/", active := false, pinned := false,
    audible := false }

/-- Injection permitted everywhere. -/
def injAll : Nat → Bool := fun _ => true

/-- Injection refused everywhere (permission denial). -/
def injNone : Nat → Bool := fun _ => false

/-! ## Helper lemmas -/

lemma fn_depth_bound (f : Fn) : (Fn.bound f).depth = f.depth + 1 := rfl

lemma throttledWorker_ne (f : Fn) : Fn.throttledWorker f ≠ f := by
  intro h
  have h2 := congrArg Fn.depth h
  simp only [Fn.depth] at h2
  omega

lemma throttledResizeObserver_ne (f : Fn) : Fn.throttledResizeObserver f ≠ f := by
  intro h
  have h2 := congrArg Fn.depth h
  simp only [Fn.depth] at h2
  omega

lemma throttledIntersectionObserver_ne (f : Fn) :
    Fn.throttledIntersectionObserver f ≠ f := by
  intro h
  have h2 := congrArg Fn.depth h
  simp only [Fn.depth] at h2
  omega

/-- Membership in the throttled set after one `sweepStep`, assuming every
injection is permitted. -/
lemma mem_sweepStep_fst (sites : List String) (inj : Nat → Bool)
    (hinj : ∀ j, inj j = true) (p : Finset Nat × List Nat) (t : Tab) (i : Nat) :
    i ∈ (sweepStep sites inj p t).1 ↔
      ((t.id = i ∧ eligibleTab sites t = true) ∨
        (i ∈ p.1 ∧ (t.id = i → deactivatingTab sites t = false))) := by
  cases hacc : isTabAccessible t with
  | false => simp [sweepStep, hacc, eligibleTab, deactivatingTab]
  | true =>
    cases hwl : isWhitelisted t.url sites with
    | true => simp [sweepStep, hacc, hwl, eligibleTab, deactivatingTab]
    | false =>
      cases hact : t.active with
      | true =>
        by_cases hmem : t.id ∈ p.1
        · simp [sweepStep, hacc, hwl, hact, hmem, eligibleTab, deactivatingTab,
            Finset.mem_erase]
          constructor
          · rintro ⟨h1, h2⟩
            exact ⟨h2, fun h => h1 h.symm⟩
          · rintro ⟨h1, h2⟩
            exact ⟨fun h => h2 h.symm, h1⟩
        · simp [sweepStep, hacc, hwl, hact, hmem, eligibleTab, deactivatingTab]
          intro h he
          exact hmem (by rwa [he])
      | false =>
        cases hpin : t.pinned with
        | true =>
          simp [sweepStep, hacc, hwl, hact, hpin, eligibleTab, deactivatingTab]
        | false =>
          cases haud : t.audible with
          | true =>
            simp [sweepStep, hacc, hwl, hact, hpin, haud, eligibleTab,
              deactivatingTab]
          | false =>
            by_cases hmem : t.id ∈ p.1
            · simp [sweepStep, hacc, hwl, hact, hpin, haud, hmem, eligibleTab,
                deactivatingTab]
              intro he
              rwa [he] at hmem
            · simp [sweepStep, hacc, hwl, hact, hpin, haud, hmem, hinj t.id,
                eligibleTab, deactivatingTab, Finset.mem_insert]
              constructor
              · rintro (h | h)
                · exact Or.inl h.symm
                · exact Or.inr h
              · rintro (h | h)
                · exact Or.inl h.symm
                · exact Or.inr h

/-- Membership in the throttled set after folding a whole sweep, assuming
all injections are permitted and tab ids are distinct. -/
lemma mem_sweep_foldl (sites : List String) (inj : Nat → Bool)
    (hinj : ∀ j, inj j = true) (i : Nat) (tabs : List Tab) :
    ∀ p : Finset Nat × List Nat,
      (tabs.map Tab.id).Nodup →
      (i ∈ (tabs.foldl (sweepStep sites inj) p).1 ↔
        ((∃ t ∈ tabs, t.id = i ∧ eligibleTab sites t = true) ∨
          (i ∈ p.1 ∧ ∀ t ∈ tabs, t.id = i → deactivatingTab sites t = false))) := by
  induction tabs with
  | nil => intro p _; simp
  | cons t ts ih =>
    intro p hnd
    rw [List.map_cons, List.nodup_cons] at hnd
    have hne : ∀ t' ∈ ts, t'.id ≠ t.id := by
      intro t' ht' h
      exact hnd.1 (h ▸ List.mem_map_of_mem Tab.id ht')
    rw [List.foldl_cons, ih (sweepStep sites inj p t) hnd.2,
      mem_sweepStep_fst sites inj hinj p t i]
    simp only [List.exists_mem_cons_iff, List.forall_mem_cons]
    by_cases hti : t.id = i
    · have hA : (∃ t' ∈ ts, t'.id = i ∧ eligibleTab sites t' = true) ↔ False := by
        constructor
        · rintro ⟨t', ht', he, _⟩
          exact hne t' ht' (he.trans hti.symm)
        · exact False.elim
      have hF : (∀ t' ∈ ts, t'.id = i → deactivatingTab sites t' = false) ↔ True := by
        constructor
        · exact fun _ => trivial
        · intro _ t' ht' he
          exact absurd (he.trans hti.symm) (hne t' ht')
      rw [hA, hF]
      simp
    · have hE : (t.id = i ∧ eligibleTab sites t = true) ↔ False := by
        constructor
        · exact fun h => hti h.1
        · exact False.elim
      have hD : (t.id = i → deactivatingTab sites t = false) ↔ True := by
        constructor
        · exact fun _ => trivial
        · exact fun _ h => absurd h hti
      rw [hE, hD]
      simp

/-! ## Claim theorems -/

/-- C1: the round-trip of throttle-entry followed immediately by restore
does NOT return every intercepted capability to its pre-intercept value:
`Worker`, `ResizeObserver` and `IntersectionObserver` are intercepted and
their originals captured at throttle-entry, but restoration (sections 4-5
of restore-script.js) reinstalls none of them — the three bindings remain
the throttled wrappers and the captured entries are silently dropped. -/
theorem throttle_restore_drops_worker_and_observers (w : Window) :
    ((restoreScript (throttleScript w)).1.Worker = Fn.throttledWorker w.Worker ∧
      (restoreScript (throttleScript w)).1.Worker ≠ w.Worker) ∧
    ((restoreScript (throttleScript w)).1.ResizeObserver =
        Fn.throttledResizeObserver w.ResizeObserver ∧
      (restoreScript (throttleScript w)).1.ResizeObserver ≠ w.ResizeObserver) ∧
    ((restoreScript (throttleScript w)).1.IntersectionObserver =
        Fn.throttledIntersectionObserver w.IntersectionObserver ∧
      (restoreScript (throttleScript w)).1.IntersectionObserver ≠
        w.IntersectionObserver) ∧
    (restoreScript (throttleScript w)).1.origWorker = some w.Worker := by
  have h1 : (restoreScript (throttleScript w)).1.Worker =
      Fn.throttledWorker w.Worker := by
    simp [restoreScript, throttleScript]
  have h2 : (restoreScript (throttleScript w)).1.ResizeObserver =
      Fn.throttledResizeObserver w.ResizeObserver := by
    simp [restoreScript, throttleScript]
  have h3 : (restoreScript (throttleScript w)).1.IntersectionObserver =
      Fn.throttledIntersectionObserver w.IntersectionObserver := by
    simp [restoreScript, throttleScript]
  refine ⟨⟨h1, ?_⟩, ⟨h2, ?_⟩, ⟨h3, ?_⟩, ?_⟩
  · rw [h1]; exact throttledWorker_ne w.Worker
  · rw [h2]; exact throttledResizeObserver_ne w.ResizeObserver
  · rw [h3]; exact throttledIntersectionObserver_ne w.IntersectionObserver
  · simp [restoreScript, throttleScript]

/-- C2: invoking the throttle script twice is NOT a no-op: the guard's
`return` only exits its own IIFE, so the second run re-executes everything,
overwriting the Intercept Record with bound copies of the already-patched
schedulers and resetting the Media Snapshot list to empty (only the Marker
is unchanged). -/
theorem double_throttle_not_idempotent :
    (throttleScript (throttleScript sampleWindow)).applied =
      (throttleScript sampleWindow).applied ∧
    (throttleScript sampleWindow).mediaState = some [⟨7, true, 42, none, none⟩] ∧
    (throttleScript (throttleScript sampleWindow)).mediaState = some [] ∧
    ((throttleScript (throttleScript sampleWindow)).originals).map
        Originals.setTimeout =
      some (Fn.bound (Fn.throttledSetTimeout (Fn.bound (Fn.native 0)))) ∧
    (throttleScript (throttleScript sampleWindow)).originals ≠
      (throttleScript sampleWindow).originals := by
  decide

/-- C3: the Media Snapshot taken for a playing element records the
was-playing flag and position but NOT the original autoplay and muted
flags (the pushed record carries no such keys), and restoration therefore
sets `muted := false` and `autoplay := true` regardless of the pre-throttle
values: for `mutedMedia` (muted, autoplay off) neither flag is
reproduced. -/
theorem media_snapshot_misses_flags :
    mutedMedia.muted = true ∧ mutedMedia.autoplay = false ∧
    (throttleScript mutedWindow).mediaState =
      some [{ elemId := 7, wasPlaying := true, currentTime := 42,
              originalAutoplay := none, originalMuted := none }] ∧
    (restoreScript (throttleScript mutedWindow)).1.media.map MediaElem.muted =
      [false] ∧
    (restoreScript (throttleScript mutedWindow)).1.media.map MediaElem.autoplay =
      [true] := by
  decide

/-- C4 counterexample: a tab that is in the prior throttled set, background
but pinned, is neither throttled (already in the set is irrelevant — it
fails the admission guard) nor restored (it is not active), so it stays in
the set and the sweep does not converge to the claimed target. -/
theorem sweep_stale_pinned_member_not_evicted :
    detectAllBackgroundTabs [] injAll [pinnedTab] {1} ≠
      sweepTarget [] [pinnedTab] := by
  decide

/-- C4 (amended): after one sweep with all injections permitted and
distinct tab ids, the throttled set contains exactly the tabs that are
accessible, non-exempt, background, unpinned and inaudible, together with
those prior members that no accessible non-exempt active tab evicts; it
equals the spec's target only when no such stale member exists. -/
theorem sweep_membership_characterization (sites : List String)
    (inj : Nat → Bool) (tabs : List Tab) (S : Finset Nat) (i : Nat)
    (hnodup : (tabs.map Tab.id).Nodup) (hinj : ∀ j, inj j = true) :
    i ∈ detectAllBackgroundTabs sites inj tabs S ↔
      ((∃ t ∈ tabs, t.id = i ∧ eligibleTab sites t = true) ∨
        (i ∈ S ∧ ∀ t ∈ tabs, t.id = i → deactivatingTab sites t = false)) :=
  mem_sweep_foldl sites inj hinj i tabs (S, []) hnodup

theorem sweep_membership_characterization_witness :
    1 ∈ detectAllBackgroundTabs [] injAll [pinnedTab] {1} :=
  (sweep_membership_characterization [] injAll [pinnedTab] {1} 1 (by decide)
      (fun _ => rfl)).mpr
    (Or.inr ⟨by decide, by decide⟩)

/-- C5: `isExempt` (the `isWhitelisted`/`getDomain` pair) is true on
`https://music.youtube.com/x` exactly when `youtube.com` is listed, is
false on `https://notyoutube.com` even with `youtube.com` listed (no
partial-label match), and is false on every URL the platform cannot parse
(fail closed). -/
theorem whitelist_matching_correct :
    (∀ sites : List String,
      (isWhitelisted "https://music.youtube.com/x" sites = true ↔
        "youtube.com" ∈ sites)) ∧
    isWhitelisted "https://notyoutube.com" ["youtube.com"] = false ∧
    (∀ url : String, ∀ sites : List String, hostOf url = none →
      isWhitelisted url sites = false) := by
  refine ⟨?_, by decide, ?_⟩
  · intro sites
    have h : getDomain "https://music.youtube.com/x" = "youtube.com" := by decide
    simp [isWhitelisted, h, List.elem_iff, List.contains]
  · intro url sites h
    simp [isWhitelisted, getDomain, h]

theorem whitelist_matching_witness :
    isWhitelisted "https://music.youtube.com/x" ["youtube.com"] = true ∧
    isWhitelisted "not a url" ["youtube.com"] = false :=
  ⟨(whitelist_matching_correct.1 ["youtube.com"]).mpr (by decide),
    whitelist_matching_correct.2.2 "not a url" ["youtube.com"] (by decide)⟩

/-- C6: while throttled, the patched one-shot scheduler forwards every call
to the captured original (the bound copy of the pre-patch binding, taken
before patching) with delay `max d 10000`, the patched repeating scheduler
with delay `max d 30000`; the short floor is strictly below the longer one,
and delays at or above a floor pass through unchanged. -/
theorem timer_floors_correct (w : Window) (d : Nat) :
    schedDispatch (throttleScript w).setTimeout ⟨0, d, []⟩ =
      (Fn.bound w.setTimeout, ⟨0, max d 10000, []⟩) ∧
    schedDispatch (throttleScript w).setInterval ⟨0, d, []⟩ =
      (Fn.bound w.setInterval, ⟨0, max d 30000, []⟩) ∧
    (10000 : Nat) < 30000 ∧
    (10000 ≤ d →
      (schedDispatch (throttleScript w).setTimeout ⟨0, d, []⟩).2.delay = d) ∧
    (30000 ≤ d →
      (schedDispatch (throttleScript w).setInterval ⟨0, d, []⟩).2.delay = d) ∧
    ((throttleScript w).originals).map Originals.setTimeout =
      some (Fn.bound w.setTimeout) ∧
    ((throttleScript w).originals).map Originals.setInterval =
      some (Fn.bound w.setInterval) := by
  refine ⟨?_, ?_, by norm_num, ?_, ?_, ?_, ?_⟩
  · simp [throttleScript, schedDispatch]
  · simp [throttleScript, schedDispatch]
  · intro h
    simp [throttleScript, schedDispatch]
    omega
  · intro h
    simp [throttleScript, schedDispatch]
    omega
  · simp [throttleScript]
  · simp [throttleScript]

theorem timer_floors_witness :
    (schedDispatch (throttleScript sampleWindow).setTimeout ⟨0, 20000, []⟩).2.delay =
      20000 ∧
    (schedDispatch (throttleScript sampleWindow).setInterval ⟨0, 40000, []⟩).2.delay =
      40000 :=
  ⟨(timer_floors_correct sampleWindow 20000).2.2.2.1 (by norm_num),
    (timer_floors_correct sampleWindow 40000).2.2.2.2.1 (by norm_num)⟩

/-- C7 counterexample: a tab whose injection is refused with a permission
denial is attempted again on the very next sweep — the denial is not
recorded anywhere, so the coordinator retries it. -/
theorem denied_tab_retried_on_next_sweep :
    sweepAttempts [] injNone [deniedTab] ∅ = [3] ∧
    detectAllBackgroundTabs [] injNone [deniedTab] ∅ = ∅ ∧
    sweepAttempts [] injNone [deniedTab]
      (detectAllBackgroundTabs [] injNone [deniedTab] ∅) = [3] := by
  decide

/-- C7 (amended): a permission-denied injection is non-fatal — the tab is
not added to the throttled set and the sweep completes — but nothing
records the denial, so the sweep attempts the injection (and is denied)
every time the tab remains an eligible background tab. -/
theorem denied_tab_skipped_but_reattempted (sites : List String)
    (inj : Nat → Bool) (S : Finset Nat) (t : Tab)
    (hacc : isTabAccessible t = true) (hwl : isWhitelisted t.url sites = false)
    (hact : t.active = false) (hpin : t.pinned = false) (haud : t.audible = false)
    (hmem : t.id ∉ S) (hdenied : inj t.id = false) :
    detectAllBackgroundTabs sites inj [t] S = S ∧
    sweepAttempts sites inj [t] S = [t.id] := by
  unfold detectAllBackgroundTabs sweepAttempts
  simp [sweepStep, hacc, hwl, hact, hpin, haud, hmem, hdenied]

theorem denied_tab_skipped_but_reattempted_witness :
    detectAllBackgroundTabs ["youtube.com"] injNone [deniedTab] ∅ = ∅ ∧
    sweepAttempts ["youtube.com"] injNone [deniedTab] ∅ = [3] :=
  denied_tab_skipped_but_reattempted ["youtube.com"] injNone ∅ deniedTab
    (by decide) (by decide) (by decide) (by decide) (by decide) (by decide)
    (by decide)

/-- C8: `restoreTab` removes the tab id from the throttled set on every
outcome — lookup failure, inaccessible tab, injection error, successful
injection, or a thrown exception — so membership never leaks. -/
theorem restore_always_removes_membership (S : Finset Nat) (tabId : Nat)
    (o : RestoreOutcome) :
    restoreTabSet S tabId o = S.erase tabId ∧ tabId ∉ restoreTabSet S tabId o := by
  cases o <;> exact ⟨rfl, Finset.not_mem_erase _ _⟩

/-- C9 counterexample: a snapshotted playable element removed from the
document before restoration still gets a resume attempt — the restore loop
iterates the snapshot list by element reference and never checks document
membership, so nothing is omitted. -/
theorem removed_media_resume_still_attempted :
    detachedWindow.media.map MediaElem.inDocument = [false] ∧
    (restoreScript detachedWindow).2 = [7] := by
  decide

/-- C9 (amended): restoration completes for every snapshot list and
attempts resume for exactly the snapshots whose was-playing flag is set,
whether or not the element is still in the document; a resume rejection is
caught by the attached handler rather than thrown. -/
theorem restore_attempts_every_playing_snapshot (w : Window)
    (snaps : List Snapshot) (happ : w.applied = true)
    (hms : w.mediaState = some snaps) :
    (restoreScript w).2 =
      (snaps.filter (fun s : Snapshot => s.wasPlaying)).map
        (fun s : Snapshot => s.elemId) := by
  rcases ho : w.originals with _ | o
  · rcases hc : w.origCanvasGetContext with _ | g <;>
      simp [restoreScript, happ, hms, ho, hc]
  · rcases hcan : o.cancelAnimationFrame with _ | c <;>
      rcases hc : w.origCanvasGetContext with _ | g <;>
        simp [restoreScript, happ, hms, ho, hc, hcan]

theorem restore_attempts_every_playing_snapshot_witness :
    (restoreScript detachedWindow).2 = [7] := by
  have h := restore_attempts_every_playing_snapshot detachedWindow
    [⟨7, true, 42, none, none⟩] (by decide) (by decide)
  simpa using h

/-- C10: while throttled, a scheduling call carrying extra arguments after
the delay forwards only the callback and the raised delay to the captured
original scheduler — the extra arguments are dropped, so the callback fires
with none of them, whereas an unpatched scheduler would pass them on. -/
theorem patched_timers_drop_extra_args (w : Window) (cb d : Nat)
    (extra : List Nat) :
    nativeTimerCallbackArgs
        ((schedDispatch (throttleScript w).setTimeout ⟨cb, d, extra⟩).2) = [] ∧
    (schedDispatch (throttleScript w).setTimeout ⟨cb, d, extra⟩).2.cb = cb ∧
    nativeTimerCallbackArgs
        ((schedDispatch (throttleScript w).setInterval ⟨cb, d, extra⟩).2) = [] ∧
    (schedDispatch (throttleScript w).setInterval ⟨cb, d, extra⟩).2.cb = cb ∧
    nativeTimerCallbackArgs ⟨cb, d, extra⟩ = extra := by
  simp [throttleScript, schedDispatch, nativeTimerCallbackArgs]
